import Mathlib

/-!
Verification development for the pairwise RMS statistics calculator
(`rms_calculator.py`).

The Python module is shallowly embedded in Lean:

* floating-point values are modelled as exact rationals (`ℚ`); the module
  uses Python's `statistics` library, whose `mean`/`stdev` compute exactly
  over `Fraction`s before a final float conversion, so rational arithmetic
  is the faithful idealisation;
* Python's `math.nan` sentinel is modelled as `Option.none`;
* dictionaries built by inserting keys in ascending order are modelled as
  association lists in insertion order (Python dicts preserve insertion
  order);
* the PyMOL collaborator (`cmd.count_states`, `cmd.count_atoms`,
  `cmd.intra_fit`) is a parameter of the embedding, with `Except` results
  modelling raised exceptions;
* `statistics.stdev xs` is the square root of the sample variance
  (`N - 1` denominator); since the square root of a rational is in general
  irrational, the embedding stores the exact square of the standard
  deviation (`overall_sd_sq`); two nonnegative standard deviations are
  equal iff their squares are, so no information is lost;
* strings are Lean `String`s; character classification (`str.isalnum`,
  `str.strip`, `str.lower`) is modelled by predicates that coincide with
  CPython's exactly on the ASCII range (see `pyIsSpace`, `sanitizeChar`,
  `pyLower`); Python's Unicode-aware classification of non-ASCII
  characters is outside the embedding, so the statement about filename
  sanitisation carries explicit ASCII hypotheses on its string inputs.
-/

namespace PyRMS

/-- The single-quote character, used inside several report and error
message strings of the module. -/
def squote : String := String.mk [Char.ofNat 39]

/-- Outcome of one call to the RMS provider (`cmd.intra_fit`): the call can
raise an exception, return `None`, return a numeric scalar, return a
sequence whose entries all convert to `float`, or return a sequence for
which the float conversion fails. -/
inductive RmsOutcome where
  | err (msg : String)
  | nullRes
  | scalar (x : ℚ)
  | values (xs : List ℚ)
  | badSeq
deriving Repr, DecidableEq

/-- Normalisation of a non-raising provider return value
(`rms_calculator.py` lines 167-175): `None` becomes `[]`, a scalar becomes
a one-element list, a convertible sequence keeps its entries in order, and
a sequence that fails float conversion becomes `[]`. -/
def normalizeRms : RmsOutcome → List ℚ
  | .err _ => []
  | .nullRes => []
  | .scalar x => [x]
  | .values xs => xs
  | .badSeq => []

/-- The three accumulators threaded through the per-state loop of
`compute_mode` (`rms_calculator.py` lines 154-156). -/
structure ModeAccum where
  per_state_means : List (ℕ × Option ℚ)
  all_rms : List ℚ
  per_state_pairs : List (ℕ × List ℚ)
deriving Repr, DecidableEq

/-- `statistics.mean`: the exact arithmetic mean (only ever applied to
nonempty lists by the module). -/
def listMean (xs : List ℚ) : ℚ := xs.sum / (xs.length : ℚ)

/-- The sample variance with `N - 1` denominator: the square of
`statistics.stdev` (only ever applied to lists of length at least 2 by the
module). -/
def sampleVariance (xs : List ℚ) : ℚ :=
  (xs.map (fun x => (x - listMean xs) ^ 2)).sum / ((xs.length : ℚ) - 1)

/-- The non-raising part of one iteration of the `compute_mode` loop
(`rms_calculator.py` lines 177-187): filter the normalised values to the
nonnegative ones, store them for the state, and when some survive record
their mean and extend the flattened list, otherwise record the nan
sentinel. -/
def nonErrStep (acc : ModeAccum) (state_idx : ℕ) (rms_values : List ℚ) : ModeAccum :=
  let rms_filtered := rms_values.filter (fun x => decide (0 ≤ x))
  let acc' := { acc with per_state_pairs := acc.per_state_pairs ++ [(state_idx, rms_filtered)] }
  if rms_filtered.isEmpty then
    { acc' with per_state_means := acc'.per_state_means ++ [(state_idx, none)] }
  else
    { acc' with
      per_state_means := acc'.per_state_means ++ [(state_idx, some (listMean rms_filtered))],
      all_rms := acc'.all_rms ++ rms_filtered }

/-- One iteration of the `for state_idx in range(1, states + 1)` loop of
`compute_mode` (`rms_calculator.py` lines 158-187): a raising provider
records the nan sentinel and an empty pair list for the state and moves
on; otherwise the return value is normalised and handed to the
nonnegative-filtering step. -/
def computeModeStep (provider : ℕ → RmsOutcome) (acc : ModeAccum) (state_idx : ℕ) : ModeAccum :=
  match provider state_idx with
  | .err _ =>
      { acc with
        per_state_means := acc.per_state_means ++ [(state_idx, none)],
        per_state_pairs := acc.per_state_pairs ++ [(state_idx, [])] }
  | r => nonErrStep acc state_idx (normalizeRms r)

/-- `compute_mode` (`rms_calculator.py` lines 153-189): fold the per-state
loop over the state indices `1, 2, ..., states`. -/
def compute_mode (states : ℕ) (provider : ℕ → RmsOutcome) : ModeAccum :=
  (List.range' 1 states).foldl (computeModeStep provider) ⟨[], [], []⟩

/-- One mode's entry in the result dictionary.  `overall_sd_sq` is the
exact square of the module's `overall_sd` (see the file header); the nan
sentinel is `none`. -/
structure ModeSummary where
  per_state_means : List (ℕ × Option ℚ)
  per_state_pairs : List (ℕ × List ℚ)
  all_rms : List ℚ
  overall_mean : Option ℚ
  overall_sd_sq : Option ℚ
deriving Repr, DecidableEq

/-- `summarize` (`rms_calculator.py` lines 196-206): store the per-state
data and compute the overall mean and (squared) sample standard deviation,
with the nan sentinel for an empty list (mean and sd) and for a singleton
list (sd). -/
def summarize (per_state : List (ℕ × Option ℚ)) (rms_list : List ℚ)
    (per_state_pairs : List (ℕ × List ℚ)) : ModeSummary :=
  { per_state_means := per_state
    per_state_pairs := per_state_pairs
    all_rms := rms_list
    overall_mean := if rms_list.isEmpty then none else some (listMean rms_list)
    overall_sd_sq :=
      if rms_list.isEmpty then none
      else if 1 < rms_list.length then some (sampleVariance rms_list) else none }

/-- The top-level result dictionary (`rms_calculator.py` lines 95-117),
without the `"help"` variant. -/
structure AnalysisResult where
  mode_all : ModeSummary
  mode_no_hydrogen : ModeSummary
  selection : Option String
  atom_count_all : Option ℕ
  atom_count_no_hydrogen : Option ℕ
  states : ℕ
  report_file : Option String
  error : Option String
deriving Repr, DecidableEq

/-- The initial value of one mode's entry (`rms_calculator.py`
lines 97-110): empty maps and lists, nan mean and sd. -/
def emptyModeSummary : ModeSummary :=
  { per_state_means := [], per_state_pairs := [], all_rms := [],
    overall_mean := none, overall_sd_sq := none }

/-- The freshly initialised result dictionary (`rms_calculator.py`
lines 95-117). -/
def initResult : AnalysisResult :=
  { mode_all := emptyModeSummary, mode_no_hydrogen := emptyModeSummary,
    selection := none, atom_count_all := none, atom_count_no_hydrogen := none,
    states := 0, report_file := none, error := none }

/-- Python `str.rjust`-style padding as performed by `f"{s:>w}"` and
`f"{n:wd}"`: left-pad with spaces up to width `w` (no-op when `s` is
already at least that wide). -/
def rjust (w : ℕ) (s : String) : String :=
  String.mk (List.replicate (w - s.length) ' ') ++ s

/-- Python `f"{s:<w}"`: right-pad with spaces up to width `w`. -/
def ljust (w : ℕ) (s : String) : String :=
  s ++ String.mk (List.replicate (w - s.length) ' ')

/-- `"-" * n` and friends: a string of `n` copies of one character. -/
def charLine (c : Char) (n : ℕ) : String := String.mk (List.replicate n c)

/-- The fractional part of the 3-decimal rendering: exactly three decimal
digits, zero-padded. -/
def pad3 (n : ℕ) : String :=
  String.mk [Nat.digitChar (n / 100), Nat.digitChar (n / 10 % 10), Nat.digitChar (n % 10)]

/-- `f"{x:.3f}"` on a finite value: fixed-point rendering with exactly
three decimal places.  The exact tie-breaking of CPython's float
formatting depends on the binary representation; the embedding rounds the
exact rational to the nearest thousandth. -/
def fmtQ3 (x : ℚ) : String :=
  let n : ℤ := round (x * 1000)
  (if n < 0 then "-" else "") ++ toString (n.natAbs / 1000) ++ "." ++ pad3 (n.natAbs % 1000)

/-- `fmt_num` (`rms_calculator.py` lines 213-214): the nan sentinel
renders as the literal token `nan`, every other value with three decimal
places. -/
def fmt_num : Option ℚ → String
  | none => "nan"
  | some x => fmtQ3 x

/-- Rational approximation of the square root, accurate to three decimal
places, used only to render `overall_sd` (whose exact square is stored)
inside report lines. -/
def sqrtTo3 (v : ℚ) : ℚ := (Nat.sqrt (v * 1000000).floor.toNat : ℚ) / 1000

/-- Rendering of the overall standard deviation: `fmt_num` applied to the
square root of the stored squared sd. -/
def fmtSd : Option ℚ → String
  | none => "nan"
  | some v => fmtQ3 (sqrtTo3 v)

/-- CPython's whitespace test on the ASCII range: `str.isspace()` — and
hence `str.strip()` — holds for exactly the code points 0x09-0x0D (tab,
LF, VT, FF, CR), 0x1C-0x1F (FS, GS, RS, US) and 0x20 (space).  Python
additionally strips non-ASCII Unicode whitespace (0xA0 etc.); that
classification is outside this embedding, which is why the
export-filename theorem restricts its string inputs to ASCII. -/
def pyIsSpace (c : Char) : Bool :=
  (9 ≤ c.toNat && c.toNat ≤ 13) || (28 ≤ c.toNat && c.toNat ≤ 31) || c.toNat = 32

/-- Python `str.strip()`: drop leading and trailing whitespace (exact on
ASCII strings, see `pyIsSpace`). -/
def pyStrip (s : String) : String :=
  String.mk (((s.data.dropWhile pyIsSpace).reverse.dropWhile pyIsSpace).reverse)

/-- Python `str.lower()`: exact on ASCII strings (`Char.toLower` lowers
exactly `A`-`Z`); Python also lowercases non-ASCII letters, outside this
embedding. -/
def pyLower (s : String) : String := String.mk (s.data.map Char.toLower)

/-- The `selection_provided` test (`rms_calculator.py` line 235): a
selection filter is non-trivial when its stripped form is neither empty
nor the case-insensitive literal `all`.  (The `try` around the source
expression cannot fail on a string argument.) -/
def selection_provided (selection : String) : Bool :=
  (pyStrip selection != "") && (pyLower (pyStrip selection) != "all")

/-- `dict.get(state_idx, math.nan)` on the per-state means map. -/
def meansLookup (l : List (ℕ × Option ℚ)) (s : ℕ) : Option ℚ :=
  (l.lookup s).getD none

/-- `dict.get(state_idx, [])` on the per-state pairs map. -/
def pairsLookup (l : List (ℕ × List ℚ)) (s : ℕ) : List ℚ :=
  (l.lookup s).getD []

/-- Rendering of a nullable atom count: the number, or `?` when the count
query failed (`rms_calculator.py` lines 249-250, 273). -/
def optNatStr : Option ℕ → String
  | none => "?"
  | some n => toString n

/-- The fixed five-line report banner (`rms_calculator.py`
lines 218-222). -/
def reportHeader : List String :=
  ["", charLine '*' 29, "* RMS Statistics Calculator *", charLine '*' 29, ""]

/-- The detail-level description line (`rms_calculator.py`
lines 224-230); its text differs at each display level. -/
def dlDescrLine (display_level : ℤ) : String :=
  "The level of detail in this report has been set to => " ++
    (if display_level = 0 then "0 (average values only)"
     else if display_level = 1 then "1 (global average and per-state means included)"
     else "2 (full detail)")

/-- The note block inserted when no non-trivial selection filter was
provided (`rms_calculator.py` lines 239-243). -/
def noSelectionNote : List String :=
  ["Note: no explicit selection was provided, so the script selected all atoms in the object.",
   "If you want a subset (for example only chain A), pass a selection string via the " ++
     squote ++ "selection" ++ squote ++ " argument, e.g.: selection=" ++ squote ++ "chain A" ++ squote,
   "It is not necessary to explicitely exlude hydrogen atoms. RMS statistics are calculated both including and excluding hydrogens automatically.",
   ""]

/-- One row of the RMS summary table (`rms_calculator.py`
lines 272-274). -/
def summaryRow (name : String) (natoms : Option ℕ) (m : ModeSummary) : String :=
  ljust 16 name ++ " " ++ rjust 7 (optNatStr natoms) ++ " " ++
    rjust 9 (toString m.all_rms.length) ++ " " ++ rjust 10 (fmt_num m.overall_mean) ++ " " ++
    rjust 10 (fmtSd m.overall_sd_sq)

/-- The selection/metadata block and the always-shown RMS summary table
(`rms_calculator.py` lines 231-276): every line between the detail-level
description line and the display-level-dependent blocks. -/
def midBlock (selection base_selection : String) (res : AnalysisResult) : List String :=
  ["", charLine '#' 12 ++ " Data selection " ++ charLine '#' 12] ++
  (if selection_provided selection then [] else noSelectionNote) ++
  ["",
   charLine 'x' 40,
   "Resolved selection: " ++ base_selection,
   "States inspected: " ++ toString res.states,
   "Atoms selected:",
   "  All: " ++ optNatStr res.atom_count_all,
   "  Heavy (no H): " ++ optNatStr res.atom_count_no_hydrogen,
   charLine 'x' 40,
   "",
   charLine '#' 40,
   "",
   charLine '=' 24 ++ " RMS Summary " ++ charLine '=' 24,
   ljust 16 "Mode" ++ " " ++ rjust 7 "#atoms" ++ " " ++ rjust 9 "#values" ++ " " ++
     rjust 10 "mean" ++ " " ++ rjust 10 "sd",
   charLine '-' 60,
   summaryRow "All atoms" res.atom_count_all res.mode_all,
   summaryRow "Heavy atoms" res.atom_count_no_hydrogen res.mode_no_hydrogen,
   charLine '-' 60]

/-- The header row of a per-state means table (`rms_calculator.py`
lines 283, 292). -/
def stateTableHeader : String :=
  rjust 5 "State" ++ " " ++ rjust 12 "Mean RMS" ++ " " ++ rjust 10 "#pairs"

/-- One row of a per-state means table (`rms_calculator.py` lines 285-288,
294-297). -/
def perStateRow (m : ModeSummary) (s : ℕ) : String :=
  rjust 5 (toString s) ++ " " ++ rjust 12 (fmt_num (meansLookup m.per_state_means s)) ++ " " ++
    rjust 10 (toString (pairsLookup m.per_state_pairs s).length)

/-- The per-state means tables, one per mode, emitted when
`display_level >= 1` (`rms_calculator.py` lines 279-298). -/
def perStateBlock (res : AnalysisResult) : List String :=
  ["Average RMS per state (showing NaN where unavailable):", "", "All atoms:",
   stateTableHeader, charLine '-' 34] ++
  (List.range' 1 res.states).map (perStateRow res.mode_all) ++
  ["", "Heavy atoms (no H):", stateTableHeader, charLine '-' 34] ++
  (List.range' 1 res.states).map (perStateRow res.mode_no_hydrogen) ++
  [charLine '-' 60]

/-- The header row of a per-pair detail table (`rms_calculator.py`
lines 306, 317). -/
def pairTableHeader : String := rjust 7 "Pair #" ++ " " ++ rjust 12 "RMS"

/-- The body of one per-pair detail table: the enumerated rows, or the
literal placeholder when the state has no valid pair values
(`rms_calculator.py` lines 308-313, 319-324). -/
def pairRows (pairs : List ℚ) : List String :=
  if pairs.isEmpty then ["   (no pair RMS values)"]
  else ((List.range' 1 pairs.length).zip pairs).map
    (fun q => rjust 7 (toString q.1) ++ " " ++ rjust 12 (fmt_num (some q.2)))

/-- The two per-pair detail tables of one state (`rms_calculator.py`
lines 304-325). -/
def detailStateLines (res : AnalysisResult) (s : ℕ) : List String :=
  ["",
   "State " ++ toString s ++ " - All atoms (mean = " ++
     fmt_num (meansLookup res.mode_all.per_state_means s) ++ ")",
   pairTableHeader, charLine '-' 22] ++
  pairRows (pairsLookup res.mode_all.per_state_pairs s) ++
  ["",
   "State " ++ toString s ++ " - Heavy atoms (mean = " ++
     fmt_num (meansLookup res.mode_no_hydrogen.per_state_means s) ++ ")",
   pairTableHeader, charLine '-' 22] ++
  pairRows (pairsLookup res.mode_no_hydrogen.per_state_pairs s) ++
  [charLine '-' 60]

/-- The full per-pair detail block, emitted when `display_level >= 2`
(`rms_calculator.py` lines 301-325). -/
def detailBlock (res : AnalysisResult) : List String :=
  ["Detailed per-state individual pair RMS values:"] ++
  ((List.range' 1 res.states).map (detailStateLines res)).flatten

/-- The suppression note appended at display level 0 (`rms_calculator.py`
line 328). -/
def suppressNote0 : String :=
  "(Average RMS per state and detailed per-pair output suppressed; set display_level>=1 to enable per-state means or display_level==2 for full detail)"

/-- The suppression note appended at display level 1 (`rms_calculator.py`
line 330). -/
def suppressNote1 : String :=
  "(Detailed per-pair output suppressed; set display_level==2 to enable)"

/-- The two closing lines of every report (`rms_calculator.py`
lines 332-333). -/
def reportTail : List String :=
  [charLine '=' 56, ""]

/-- `format_report_lines` (`rms_calculator.py` lines 212-335): banner,
detail-level description, selection/metadata block with summary table,
then — depending on the display level — the per-state means tables, the
per-pair detail block, and/or a suppression note, and the closing
lines. -/
def format_report_lines (display_level : ℤ) (selection base_selection : String)
    (res : AnalysisResult) : List String :=
  reportHeader ++ [dlDescrLine display_level] ++ midBlock selection base_selection res ++
  (if 1 ≤ display_level then perStateBlock res else []) ++
  (if 2 ≤ display_level then detailBlock res
   else (if display_level = 0 then [suppressNote0] else []) ++
        (if display_level = 1 then [suppressNote1] else [])) ++
  reportTail

/-- Character sanitisation for filenames (`rms_calculator.py` lines 350,
356): keep alphanumeric characters, `-` and `_`; replace everything else
by `_`.  `Char.isAlphanum` coincides with Python's `str.isalnum` exactly
on the ASCII range (both accept exactly `[0-9A-Za-z]` there); Python's
test additionally accepts non-ASCII Unicode alphanumerics, which is
outside this embedding — the export-filename theorem therefore restricts
its string inputs to ASCII. -/
def sanitizeChar (c : Char) : Char :=
  if c.isAlphanum || c = '-' || c = '_' then c else '_'

/-- `safe_obj` (`rms_calculator.py` lines 350-351): sanitise every
character of the object name and truncate to 30 characters. -/
def safe_obj_of (obj : String) : String :=
  String.mk ((obj.data.map sanitizeChar).take 30)

/-- The `include_sel` test (`rms_calculator.py` line 354): the selection
suffix is included only when the stripped selection is neither empty nor
the case-insensitive literal `all` — the same triviality test as
`selection_provided`. -/
def include_sel (selection : String) : Bool :=
  (pyStrip selection != "") && (pyLower (pyStrip selection) != "all")

/-- `"__" in s`: whether two consecutive underscores occur. -/
def hasDouble : List Char → Bool
  | [] => false
  | [_] => false
  | a :: b :: t => (a = '_' && b = '_') || hasDouble (b :: t)

/-- One pass of `s.replace("__", "_")`: left-to-right, non-overlapping
replacement of each occurrence of two underscores by one. -/
def replaceDouble : List Char → List Char
  | [] => []
  | [a] => [a]
  | a :: b :: t =>
      if a = '_' ∧ b = '_' then '_' :: replaceDouble t
      else a :: replaceDouble (b :: t)

/-- The `while "__" in safe_sel` loop (`rms_calculator.py` lines 358-359),
run with explicit fuel; each iteration strictly shortens the list, so fuel
equal to the length always reaches the fixpoint. -/
def collapseAux : ℕ → List Char → List Char
  | 0, s => s
  | fuel + 1, s => if hasDouble s then collapseAux fuel (replaceDouble s) else s

/-- Repeated collapsing of consecutive underscores down to one. -/
def collapseUnd (s : List Char) : List Char := collapseAux s.length s

/-- `s.strip("_")`: drop leading and trailing underscores. -/
def stripUnd (s : List Char) : List Char :=
  ((s.dropWhile (fun c => c = '_')).reverse.dropWhile (fun c => c = '_')).reverse

/-- `safe_sel` (`rms_calculator.py` lines 356-360): sanitise, collapse
consecutive underscores, strip leading/trailing underscores, truncate to
40 characters. -/
def safe_sel_of (selection : String) : String :=
  String.mk ((stripUnd (collapseUnd (selection.data.map sanitizeChar))).take 40)

/-- `sel_part` (`rms_calculator.py` lines 354-363): the `_sel_` filename
segment, present only for a non-trivial selection filter. -/
def sel_part_of (selection : String) : String :=
  if include_sel selection then "_sel_" ++ safe_sel_of selection else ""

/-- A local timestamp as produced by `datetime.datetime.now()`.  For any
value `datetime` can hold, `1 <= year <= 9999`, `1 <= month <= 12`,
`1 <= day <= 31`, `hour <= 23`, `minute <= 59`, `second <= 59`. -/
structure DateTime where
  year : ℕ
  month : ℕ
  day : ℕ
  hour : ℕ
  minute : ℕ
  second : ℕ
deriving Repr, DecidableEq

/-- `strftime` two-digit zero-padded field (`%m`, `%d`, `%H`, `%M`,
`%S`), for field values below 100. -/
def pad2 (n : ℕ) : String := String.mk [Nat.digitChar (n / 10), Nat.digitChar (n % 10)]

/-- `strftime` `%Y`: four-digit zero-padded year, for years below
10000. -/
def pad4 (n : ℕ) : String :=
  String.mk [Nat.digitChar (n / 1000), Nat.digitChar (n / 100 % 10),
             Nat.digitChar (n / 10 % 10), Nat.digitChar (n % 10)]

/-- `now.strftime("%Y%m%d_%H%M%S")` (`rms_calculator.py` line 365). -/
def fmtTimestamp (dt : DateTime) : String :=
  pad4 dt.year ++ pad2 dt.month ++ pad2 dt.day ++ "_" ++
    pad2 dt.hour ++ pad2 dt.minute ++ pad2 dt.second

/-- The synthesized report filename for a directory destination
(`rms_calculator.py` line 366). -/
def exportFilename (obj selection : String) (dt : DateTime) : String :=
  "rms_report_" ++ safe_obj_of obj ++ sel_part_of selection ++ "_" ++ fmtTimestamp dt ++ ".txt"

/-- The three collaborator capabilities of the PyMOL toolkit used by the
module; an `Except.error` models a raised exception, and the `RmsOutcome`
codomain models the dynamically-typed return of `cmd.intra_fit`. -/
structure Collaborators where
  count_states : String → Except String ℕ
  count_atoms : String → Except String ℕ
  intra_fit : String → ℕ → RmsOutcome

/-- The ambient environment of one invocation: whether the report path
names an existing directory, the current local time, the outcome of the
file write (an `Except.error` models a raised `OSError` or similar),
path resolution (`Path.resolve`), and the current working directory. -/
structure Env where
  dir_exists : Bool
  now : DateTime
  write_result : Except String Unit
  resolve : String → String
  cwd : String

/-- The possible return values of `calculate_rms_stats`: the help
dictionary, the analysis result dictionary, or a raised `ValueError`
(for an invalid display level). -/
inductive CalcReturn where
  | helpResult (text : String)
  | analysis (r : AnalysisResult)
  | fatal (msg : String)
deriving Repr

/-- The observable effects of one invocation: the returned value, the
lines printed to the console, and the file write (path handed to
`write_text` paired with the written content), if any. -/
structure RunOutput where
  ret : CalcReturn
  console : List String
  written : Option (String × String)

/-- The usage text returned (and printed unless quiet) when `obj_to_fit`
is omitted (`rms_calculator.py` lines 69-87). -/
def help_text : String :=
  String.intercalate "\n"
    ["",
     "calculate_rms_stats usage:",
     "  calculate_rms_stats(obj_to_fit, selection=" ++ squote ++ "all" ++ squote ++
       ", quiet=False, display_level=1, export_report=False, report_path=" ++
       squote ++ "." ++ squote ++ ")",
     "",
     "Arguments:",
     "  obj_to_fit   : (required) object name or selection to analyze. If omitted, this help is returned.",
     "  selection    : additional PyMOL selection (default: " ++ squote ++ "all" ++ squote ++ ")",
     "  quiet        : suppress printing when True",
     "  display_level: 0 -> summary only, 1 -> include per-state means, 2 -> full per-pair detail (default 1)",
     "  export_report: write report to file when True (default False)",
     "  report_path  : file path or directory for exported report, defaults to current working directory (default " ++
       squote ++ "." ++ squote ++ ")",
     "",
     "Behavior:",
     "  The function computes RMS statistics twice: including all (selected) atoms, and excluding hydrogens.",
     "  Returns a dict with the analysis when run; when called with no obj_to_fit, returns this help:",
     ""]

/-- The warning lines printed by `compute_mode` for states on which the
RMS provider raises (`rms_calculator.py` line 162), in state order. -/
def modeWarnings (selection_string : String) (states : ℕ) (provider : ℕ → RmsOutcome) : List String :=
  (List.range' 1 states).filterMap (fun s =>
    match provider s with
    | .err exc => some ("Warning: intra_fit failed for state " ++ toString s ++
        " on selection " ++ squote ++ selection_string ++ squote ++ ": " ++ exc)
    | _ => none)

/-- The error message recorded when the state-count query fails
(`rms_calculator.py` line 129). -/
def stateFailMsg (obj exc : String) : String :=
  "Failed to determine states for " ++ squote ++ obj ++ squote ++ ": " ++ exc

/-- The result returned when the state-count query fails
(`rms_calculator.py` lines 126-132): the freshly initialised result with
only the resolved selection and the error message filled in. -/
def stateFailResult (base_selection err : String) : AnalysisResult :=
  { initResult with selection := some base_selection, error := some err }

/-- The warning printed when an atom-count query fails
(`rms_calculator.py` lines 144, 150). -/
def atomCountWarning (sel exc : String) : String :=
  "Warning: failed to count atoms for selection " ++ squote ++ sel ++ squote ++ ": " ++ exc

/-- The error message recorded when the report file write fails
(`rms_calculator.py` line 381). -/
def writeFailMsg (report_path exc : String) : String :=
  "Failed to write report to " ++ squote ++ report_path ++ squote ++ ": " ++ exc

/-- The three informational lines printed (unless quiet) when export was
not requested (`rms_calculator.py` lines 385-387). -/
def noExportLines (cwd : String) : List String :=
  ["To export the report to a file, set export_report=True",
   "Set a specified path with the " ++ squote ++ "report_path" ++ squote ++ " argument.",
   "In absence of a specified path, the report will be saved in the current working directory: " ++ cwd]

/-- `calculate_rms_stats` (`rms_calculator.py` lines 42-389).  Every
`print` in the source goes through the quiet-gated `_p` wrapper (or an
equivalent `if not quiet` guard), so the console output is the quiet-gated
list of all lines printed in order; the file write, when requested,
happens regardless of `quiet`. -/
def calculate_rms_stats (obj_to_fit : Option String) (selection : String) (quiet : Bool)
    (display_level : ℤ) (export_report : Bool) (report_path : String)
    (collab : Collaborators) (env : Env) : RunOutput :=
  match obj_to_fit with
  | none =>
      { ret := .helpResult help_text,
        console := if quiet then [] else [help_text],
        written := none }
  | some obj =>
      if display_level = 0 ∨ display_level = 1 ∨ display_level = 2 then
        let base_selection := "(" ++ obj ++ ") and (" ++ selection ++ ")"
        match collab.count_states obj with
        | .error exc =>
            let err := stateFailMsg obj exc
            { ret := .analysis (stateFailResult base_selection err),
              console := if quiet then [] else [err],
              written := none }
        | .ok states =>
            let sel_all := base_selection
            let sel_no_h := base_selection ++ " and (not hydro)"
            let atoms_all := collab.count_atoms sel_all
            let atoms_no_h := collab.count_atoms sel_no_h
            let countWarn := fun (sel : String) (r : Except String ℕ) =>
              match r with
              | .ok _ => ([] : List String)
              | .error exc => [atomCountWarning sel exc]
            let modeA := compute_mode states (collab.intra_fit sel_all)
            let modeN := compute_mode states (collab.intra_fit sel_no_h)
            let res : AnalysisResult :=
              { mode_all := summarize modeA.per_state_means modeA.all_rms modeA.per_state_pairs
                mode_no_hydrogen := summarize modeN.per_state_means modeN.all_rms modeN.per_state_pairs
                selection := some base_selection
                atom_count_all := atoms_all.toOption
                atom_count_no_hydrogen := atoms_no_h.toOption
                states := states
                report_file := none
                error := none }
            let report_lines := format_report_lines display_level selection base_selection res
            let console₀ :=
              countWarn sel_all atoms_all ++ countWarn sel_no_h atoms_no_h ++
              modeWarnings sel_all states (collab.intra_fit sel_all) ++
              modeWarnings sel_no_h states (collab.intra_fit sel_no_h) ++
              report_lines
            if export_report then
              let file_path :=
                if env.dir_exists then report_path ++ "/" ++ exportFilename obj selection env.now
                else report_path
              match env.write_result with
              | .ok _ =>
                  let resolved := env.resolve file_path
                  { ret := .analysis { res with report_file := some resolved },
                    console := if quiet then []
                      else console₀ ++ ["Report exported to: " ++ resolved],
                    written := some (file_path, String.intercalate "\n" report_lines ++ "\n") }
              | .error exc =>
                  let err := writeFailMsg report_path exc
                  let newError :=
                    match res.error with
                    | none => some err
                    | some e0 => some (e0 ++ "; " ++ err)
                  { ret := .analysis { res with error := newError },
                    console := if quiet then [] else console₀ ++ [err],
                    written := none }
            else
              { ret := .analysis res,
                console := if quiet then [] else console₀ ++ noExportLines env.cwd,
                written := none }
      else
        { ret := .fatal "display_level must be 0, 1, or 2",
          console := [],
          written := none }

/-- The pair list recorded for one state: empty when the provider raises,
otherwise the nonnegative filtering of the normalised return value.  This
abbreviation names the value that `computeModeStep` stores; the lemmas
below show every accumulator field is built from it. -/
def statePairs (p : ℕ → RmsOutcome) (s : ℕ) : List ℚ :=
  match p s with
  | .err _ => []
  | r => (normalizeRms r).filter (fun x => decide (0 ≤ x))

/-- The per-state mean recorded for one state, as a function of its pair
list: the nan sentinel when empty, the mean otherwise. -/
def stateMeanOfPairs (l : List ℚ) : Option ℚ :=
  if l.isEmpty then none else some (listMean l)

/-- Provider producing the worked example of the specification: pair
lists `[[1.0, 2.0], [], [3.0]]` for states 1, 2, 3. -/
def exampleProvider : ℕ → RmsOutcome := fun s =>
  if s = 1 then .values [1, 2] else if s = 2 then .values [] else .values [3]

/-- The aggregated mode result for the worked example: `states = 3`,
provider = `exampleProvider`. -/
def exampleSummary : ModeSummary :=
  summarize (compute_mode 3 exampleProvider).per_state_means
    (compute_mode 3 exampleProvider).all_rms
    (compute_mode 3 exampleProvider).per_state_pairs

/-- Provider returning one negative and one nonnegative value for every
state. -/
def negValueProvider : ℕ → RmsOutcome := fun _ => .values [-1, 2]

/-- A collaborator whose every query succeeds trivially. -/
def trivCollab : Collaborators :=
  { count_states := fun _ => .ok 0,
    count_atoms := fun _ => .ok 0,
    intra_fit := fun _ _ => .nullRes }

/-- A collaborator whose state-count query raises. -/
def failStatesCollab : Collaborators :=
  { count_states := fun _ => .error "boom",
    count_atoms := fun _ => .ok 0,
    intra_fit := fun _ _ => .nullRes }

/-- A trivial environment. -/
def trivEnv : Env :=
  { dir_exists := false, now := ⟨2025, 1, 1, 0, 0, 0⟩, write_result := .ok (),
    resolve := fun s => s, cwd := "." }

lemma computeModeStep_pairs (p : ℕ → RmsOutcome) (acc : ModeAccum) (s : ℕ) :
    (computeModeStep p acc s).per_state_pairs
      = acc.per_state_pairs ++ [(s, statePairs p s)] := by
  cases h : p s <;>
    simp only [computeModeStep, nonErrStep, statePairs, h] <;>
    first
      | rfl
      | (split <;> rfl)

lemma computeModeStep_all_rms (p : ℕ → RmsOutcome) (acc : ModeAccum) (s : ℕ) :
    (computeModeStep p acc s).all_rms = acc.all_rms ++ statePairs p s := by
  cases h : p s <;>
    simp only [computeModeStep, nonErrStep, statePairs, h]
  case err => simp
  all_goals
    split
    case isTrue hh => simp_all [List.isEmpty_iff]
    case isFalse => rfl

lemma computeModeStep_means (p : ℕ → RmsOutcome) (acc : ModeAccum) (s : ℕ) :
    (computeModeStep p acc s).per_state_means
      = acc.per_state_means ++ [(s, stateMeanOfPairs (statePairs p s))] := by
  cases h : p s <;>
    simp only [computeModeStep, nonErrStep, statePairs, stateMeanOfPairs, h]
  case err => simp
  all_goals
    split
    case isTrue hh => simp [hh]
    case isFalse hh => simp [hh]

lemma foldl_step_pairs (p : ℕ → RmsOutcome) (l : List ℕ) (acc : ModeAccum) :
    ((l.foldl (computeModeStep p) acc).per_state_pairs)
      = acc.per_state_pairs ++ l.map (fun s => (s, statePairs p s)) := by
  induction l generalizing acc with
  | nil => simp
  | cons s t ih =>
      simp only [List.foldl_cons, List.map_cons, ih, computeModeStep_pairs]
      simp

lemma foldl_step_all_rms (p : ℕ → RmsOutcome) (l : List ℕ) (acc : ModeAccum) :
    ((l.foldl (computeModeStep p) acc).all_rms)
      = acc.all_rms ++ (l.map (statePairs p)).flatten := by
  induction l generalizing acc with
  | nil => simp
  | cons s t ih =>
      simp only [List.foldl_cons, List.map_cons, ih, computeModeStep_all_rms,
        List.flatten_cons]
      simp

lemma foldl_step_means (p : ℕ → RmsOutcome) (l : List ℕ) (acc : ModeAccum) :
    ((l.foldl (computeModeStep p) acc).per_state_means)
      = acc.per_state_means ++ l.map (fun s => (s, stateMeanOfPairs (statePairs p s))) := by
  induction l generalizing acc with
  | nil => simp
  | cons s t ih =>
      simp only [List.foldl_cons, List.map_cons, ih, computeModeStep_means]
      simp

lemma compute_mode_pairs (states : ℕ) (p : ℕ → RmsOutcome) :
    (compute_mode states p).per_state_pairs
      = (List.range' 1 states).map (fun s => (s, statePairs p s)) := by
  simp [compute_mode, foldl_step_pairs]

lemma compute_mode_all_rms (states : ℕ) (p : ℕ → RmsOutcome) :
    (compute_mode states p).all_rms
      = ((List.range' 1 states).map (statePairs p)).flatten := by
  simp [compute_mode, foldl_step_all_rms]

lemma compute_mode_means (states : ℕ) (p : ℕ → RmsOutcome) :
    (compute_mode states p).per_state_means
      = (List.range' 1 states).map (fun s => (s, stateMeanOfPairs (statePairs p s))) := by
  simp [compute_mode, foldl_step_means]

lemma statePairs_nonneg (p : ℕ → RmsOutcome) (s : ℕ) :
    ∀ x ∈ statePairs p s, 0 ≤ x := by
  intro x hx
  unfold statePairs at hx
  cases h : p s <;> simp only [h] at hx <;>
    first
      | exact absurd hx (List.not_mem_nil x)
      | exact of_decide_eq_true (List.mem_filter.mp hx).2

/-- C1: for each mode, after aggregation completes, `overall_mean` equals
the arithmetic mean of the mode's flattened `all_rms` list and is the nan
sentinel if and only if `all_rms` is empty; `overall_sd` equals the sample
standard deviation (`N - 1` denominator) of `all_rms` when `all_rms` has
at least 2 values, and is the nan sentinel otherwise.  The standard
deviation is represented by its exact square (`overall_sd_sq`), and
`sampleVariance` is the square of the sample standard deviation; two
nonnegative reals are equal iff their squares are, so the third conjunct
is equivalent to the claim about `overall_sd` itself. -/
theorem c1_overall_stats :
    ∀ (per_state : List (ℕ × Option ℚ)) (rms_list : List ℚ)
      (per_state_pairs : List (ℕ × List ℚ)),
    ((summarize per_state rms_list per_state_pairs).overall_mean
        = if rms_list.isEmpty then none else some (listMean rms_list))
    ∧ ((summarize per_state rms_list per_state_pairs).overall_mean = none ↔ rms_list = [])
    ∧ ((summarize per_state rms_list per_state_pairs).overall_sd_sq
        = if 2 ≤ rms_list.length then some (sampleVariance rms_list) else none) := by
  intro ps l prs
  refine ⟨rfl, ?_, ?_⟩
  · cases l <;> simp [summarize]
  · rcases l with _ | ⟨a, t⟩
    · simp [summarize]
    · simp only [summarize, List.isEmpty_cons, Bool.false_eq_true, if_false]
      split_ifs with h1 h2 <;> first | rfl | omega

/-- C2: for every mode and every sequence of per-state provider results,
the mode's flattened `all_rms` list equals the concatenation of
`per_state_pairs[s]` for `s` from 1 to `states` in ascending state order,
hence its length equals the sum of the per-state pair-list lengths. -/
theorem c2_flatten :
    ∀ (states : ℕ) (p : ℕ → RmsOutcome),
    ((compute_mode states p).per_state_pairs.map Prod.fst = List.range' 1 states)
    ∧ ((compute_mode states p).all_rms
        = ((compute_mode states p).per_state_pairs.map Prod.snd).flatten)
    ∧ ((compute_mode states p).all_rms.length
        = (((compute_mode states p).per_state_pairs.map Prod.snd).map List.length).sum) := by
  intro n p
  have hpairs := compute_mode_pairs n p
  have hflat : (compute_mode n p).all_rms
      = ((compute_mode n p).per_state_pairs.map Prod.snd).flatten := by
    rw [compute_mode_all_rms, hpairs, List.map_map]
    rfl
  refine ⟨?_, hflat, ?_⟩
  · rw [hpairs, List.map_map]
    simp [Function.comp_def]
  · rw [hflat, List.length_flatten]

/-- C3: for every provider return value, any RMS value strictly less than
zero is filtered out before aggregation: negative values never appear in
any `per_state_pairs` list or in `all_rms`; and every per-state mean is a
function of the stored (filtered) pair list alone, so dropped negative
values influence no mean. -/
theorem c3_nonneg :
    ∀ (states : ℕ) (p : ℕ → RmsOutcome),
    (∀ s l, (s, l) ∈ (compute_mode states p).per_state_pairs → ∀ x ∈ l, 0 ≤ x)
    ∧ (∀ x ∈ (compute_mode states p).all_rms, 0 ≤ x)
    ∧ ((compute_mode states p).per_state_means
        = (compute_mode states p).per_state_pairs.map (fun q => (q.1, stateMeanOfPairs q.2))) := by
  intro n p
  refine ⟨?_, ?_, ?_⟩
  · intro s l hm x hx
    rw [compute_mode_pairs] at hm
    obtain ⟨s', _, heq⟩ := List.mem_map.mp hm
    obtain ⟨h1, h2⟩ := Prod.mk.injEq .. ▸ heq
    rw [← h2] at hx
    exact statePairs_nonneg p s' x hx
  · intro x hx
    rw [compute_mode_all_rms] at hx
    obtain ⟨l, hl, hxl⟩ := List.mem_flatten.mp hx
    obtain ⟨s, _, rfl⟩ := List.mem_map.mp hl
    exact statePairs_nonneg p s x hxl
  · rw [compute_mode_means, compute_mode_pairs, List.map_map]
    rfl

/-- C3 witness: with one state and a provider returning `[-1, 2]`, the
stored pair list for state 1 is `[2]`, whose member 2 the theorem proves
nonnegative. -/
theorem c3_nonneg_witness : (0 : ℚ) ≤ 2 :=
  (c3_nonneg 1 negValueProvider).1 1 [2] (by decide) 2 (by decide)

/-- C4: when `states = 3` and the RMS provider yields the pair-lists
`[[1.0, 2.0], [], [3.0]]`, aggregation produces per-state means
`{1: 1.5, 2: nan, 3: 3.0}`, flattened `all_rms = [1.0, 2.0, 3.0]`,
`overall_mean = 2.0`, and `overall_sd = 1.0` (stated via its square:
`overall_sd_sq = 1`, and `1` is the unique nonnegative number whose
square is `1`). -/
theorem c4_example :
    exampleSummary.per_state_means = [(1, some ((3 : ℚ)/2)), (2, none), (3, some 3)]
    ∧ exampleSummary.per_state_pairs = [(1, [1, 2]), (2, []), (3, [3])]
    ∧ exampleSummary.all_rms = [1, 2, 3]
    ∧ exampleSummary.overall_mean = some 2
    ∧ exampleSummary.overall_sd_sq = some 1 := by
  have hm1 : listMean [1, 2] = (3 : ℚ)/2 := by
    simp [listMean]
    norm_num
  have hm3 : listMean [(3 : ℚ)] = 3 := by
    simp [listMean]
  have hmean : listMean [(1 : ℚ), 2, 3] = 2 := by
    simp [listMean]
    norm_num
  have hvar : sampleVariance [(1 : ℚ), 2, 3] = 1 := by
    simp [sampleVariance, listMean]
    norm_num
  refine ⟨?_, rfl, rfl, ?_, ?_⟩
  · show exampleSummary.per_state_means = _
    have h : exampleSummary.per_state_means
        = [(1, some (listMean [1, 2])), (2, none), (3, some (listMean [3]))] := rfl
    rw [h, hm1, hm3]
  · have h : exampleSummary.overall_mean = some (listMean [1, 2, 3]) := rfl
    rw [h, hmean]
  · have h : exampleSummary.overall_sd_sq = some (sampleVariance [1, 2, 3]) := rfl
    rw [h, hvar]

/-- C5: if the state-count query fails, `calculate_rms_stats` does not
raise: it returns a result with `states = 0`, both modes in their empty
initial form, and `error` set to a descriptive message including the
underlying failure reason; and this is the only failure that aborts the
whole analysis — whenever the state-count query succeeds the returned
analysis carries that state count, regardless of every other collaborator
outcome. -/
theorem c5_state_failure :
    ∀ (obj sel : String) (quiet : Bool) (dl : ℤ) (exportR : Bool) (path : String)
      (collab : Collaborators) (env : Env),
    (dl = 0 ∨ dl = 1 ∨ dl = 2) →
    (∀ exc, collab.count_states obj = .error exc →
      (calculate_rms_stats (some obj) sel quiet dl exportR path collab env).ret
        = .analysis (stateFailResult ("(" ++ obj ++ ") and (" ++ sel ++ ")")
            (stateFailMsg obj exc)))
    ∧ (∀ n, collab.count_states obj = .ok n →
      ∃ r, (calculate_rms_stats (some obj) sel quiet dl exportR path collab env).ret
        = .analysis r ∧ r.states = n) := by
  intro obj sel quiet dl exportR path collab env hdl
  constructor
  · intro exc hexc
    simp only [calculate_rms_stats, if_pos hdl, hexc]
  · intro n hok
    simp only [calculate_rms_stats, if_pos hdl, hok]
    cases exportR with
    | false => exact ⟨_, rfl, rfl⟩
    | true =>
        cases hw : env.write_result with
        | ok u =>
            simp only [hw]
            exact ⟨_, rfl, rfl⟩
        | error e =>
            simp only [hw]
            exact ⟨_, rfl, rfl⟩

/-- C5 witness: with a collaborator whose state-count query raises
`"boom"`, the invocation returns the short-circuit analysis result. -/
theorem c5_state_failure_witness :
    (calculate_rms_stats (some "obj") "all" false 1 false "." failStatesCollab trivEnv).ret
      = .analysis (stateFailResult "(obj) and (all)" (stateFailMsg "obj" "boom")) :=
  (c5_state_failure "obj" "all" false 1 false "." failStatesCollab trivEnv
    (Or.inr (Or.inl rfl))).1 "boom" rfl

/-- C6: for every invocation with `display_level` outside `{0, 1, 2}`,
`calculate_rms_stats` raises `ValueError` (modelled as the `fatal` return)
and aborts before any collaborator is queried: the output is a constant
independent of the collaborator and environment. -/
theorem c6_invalid_level :
    ∀ (obj sel : String) (quiet : Bool) (dl : ℤ) (exportR : Bool) (path : String)
      (collab : Collaborators) (env : Env),
    dl ≠ 0 → dl ≠ 1 → dl ≠ 2 →
    calculate_rms_stats (some obj) sel quiet dl exportR path collab env
      = ⟨.fatal "display_level must be 0, 1, or 2", [], none⟩ := by
  intro obj sel quiet dl exportR path collab env h0 h1 h2
  have hne : ¬(dl = 0 ∨ dl = 1 ∨ dl = 2) := by
    rintro (h | h | h) <;> contradiction
  simp only [calculate_rms_stats, if_neg hne]

/-- C6 witness: `display_level = 3` yields the invalid-argument failure
even with a collaborator whose every query would succeed. -/
theorem c6_invalid_level_witness :
    calculate_rms_stats (some "m") "all" false 3 false "." trivCollab trivEnv
      = ⟨.fatal "display_level must be 0, 1, or 2", [], none⟩ :=
  c6_invalid_level "m" "all" false 3 false "." trivCollab trivEnv
    (by decide) (by decide) (by decide)

/-- C9: when `calculate_rms_stats` is called with `obj_to_fit = None`, it
returns the help dictionary without raising, for every value of
`display_level` including invalid ones, because the help branch is
evaluated before `display_level` validation and before any collaborator
call: the output is independent of both. -/
theorem c9_help :
    ∀ (sel : String) (quiet : Bool) (dl : ℤ) (exportR : Bool) (path : String)
      (collab : Collaborators) (env : Env),
    calculate_rms_stats none sel quiet dl exportR path collab env
      = ⟨.helpResult help_text, if quiet then [] else [help_text], none⟩ := by
  intro sel quiet dl exportR path collab env
  rfl

/-- C10: for every fixed input and fixed collaborator behaviour, the value
returned by `calculate_rms_stats` and the exported report file (path and
content) are identical whether `quiet` is true or false; `quiet` only
suppresses the console lines (the quiet console is empty). -/
theorem c10_quiet :
    ∀ (obj : Option String) (sel : String) (dl : ℤ) (exportR : Bool) (path : String)
      (collab : Collaborators) (env : Env),
    ((calculate_rms_stats obj sel true dl exportR path collab env).ret
        = (calculate_rms_stats obj sel false dl exportR path collab env).ret)
    ∧ ((calculate_rms_stats obj sel true dl exportR path collab env).written
        = (calculate_rms_stats obj sel false dl exportR path collab env).written)
    ∧ ((calculate_rms_stats obj sel true dl exportR path collab env).console = []) := by
  intro obj sel dl exportR path collab env
  cases obj with
  | none => exact ⟨rfl, rfl, rfl⟩
  | some o =>
      by_cases hdl : (dl = 0 ∨ dl = 1 ∨ dl = 2)
      · cases hcs : collab.count_states o with
        | error e => simp [calculate_rms_stats, hdl, hcs]
        | ok n =>
            cases exportR with
            | false => simp [calculate_rms_stats, hdl, hcs]
            | true =>
                cases hw : env.write_result with
                | ok u => simp [calculate_rms_stats, hdl, hcs, hw]
                | error e => simp [calculate_rms_stats, hdl, hcs, hw]
      · simp [calculate_rms_stats, hdl]

/-- C7 counterexample: the display-level-1 report lines are not a superset
of the display-level-0 lines.  At a concrete result (the freshly
initialised one, trivial selection), the detail-level description line of
the level-0 report appears in the level-0 output but nowhere in the
level-1 output (the level-1 report carries a different description line),
so level 1 is not a superset — let alone a strict prefix-superset — of
level 0. -/
theorem c7_counterexample :
    dlDescrLine 0 ∈ format_report_lines 0 "all" "(m) and (all)" initResult
    ∧ dlDescrLine 0 ∉ format_report_lines 1 "all" "(m) and (all)" initResult := by
  decide

/-- C7 amended: the three display levels share the banner, the
selection/metadata block and the summary table; level 0 appends only the
level-0 suppression note; level 1 replaces the detail-level description
line, inserts exactly one per-state table per mode after the summary
table, and carries the level-1 suppression note instead; level 2 again
replaces the description line, keeps the per-state tables, appends the
per-pair detail block for every state, and drops the suppression note.
In particular the level-0 report contains no per-state and no per-pair
segment. -/
theorem c7_level_structure :
    ∀ (sel bs : String) (res : AnalysisResult),
    (format_report_lines 0 sel bs res
        = reportHeader ++ [dlDescrLine 0] ++ midBlock sel bs res
          ++ [suppressNote0] ++ reportTail)
    ∧ (format_report_lines 1 sel bs res
        = reportHeader ++ [dlDescrLine 1] ++ midBlock sel bs res
          ++ perStateBlock res ++ [suppressNote1] ++ reportTail)
    ∧ (format_report_lines 2 sel bs res
        = reportHeader ++ [dlDescrLine 2] ++ midBlock sel bs res
          ++ perStateBlock res ++ detailBlock res ++ reportTail) := by
  intro sel bs res
  refine ⟨?_, ?_, ?_⟩ <;> norm_num [format_report_lines]

lemma sanitizeChar_class (c : Char) :
    (sanitizeChar c).isAlphanum = true ∨ sanitizeChar c = '-' ∨ sanitizeChar c = '_' := by
  unfold sanitizeChar
  split
  case isTrue h =>
    simp only [Bool.or_eq_true, decide_eq_true_eq] at h
    rcases h with (h | h) | h
    · exact Or.inl h
    · exact Or.inr (Or.inl h)
    · exact Or.inr (Or.inr h)
  case isFalse h => exact Or.inr (Or.inr rfl)

lemma hasDouble_iff (l : List Char) : hasDouble l = true ↔ ['_', '_'] <:+: l := by
  induction l with
  | nil => simp [hasDouble]
  | cons a t ih =>
      cases t with
      | nil =>
          simp only [hasDouble]
          constructor
          · intro h
            cases h
          · intro h
            have hl := h.length_le
            simp at hl
      | cons b t2 =>
          rw [List.infix_cons_iff, List.cons_prefix_cons, List.cons_prefix_cons]
          simp only [hasDouble, Bool.or_eq_true, Bool.and_eq_true, decide_eq_true_eq, ih,
            List.nil_prefix, and_true]
          constructor
          · rintro (⟨ha, hb⟩ | h)
            · exact Or.inl ⟨ha.symm, hb.symm⟩
            · exact Or.inr h
          · rintro (⟨ha, hb⟩ | h)
            · exact Or.inl ⟨ha.symm, hb.symm⟩
            · exact Or.inr h

lemma noDouble_of_infix {l₁ l₂ : List Char} (h : l₁ <:+: l₂)
    (h2 : hasDouble l₂ = false) : hasDouble l₁ = false := by
  by_contra hc
  have h1 : hasDouble l₁ = true := by simpa using hc
  have := (hasDouble_iff l₂).mpr (((hasDouble_iff l₁).mp h1).trans h)
  rw [h2] at this
  cases this

lemma replaceDouble_length_le (l : List Char) :
    (replaceDouble l).length ≤ l.length := by
  induction l using replaceDouble.induct with
  | case1 => simp [replaceDouble]
  | case2 a => simp [replaceDouble]
  | case3 a b t hab ih =>
      simp only [replaceDouble, if_pos hab, List.length_cons]
      omega
  | case4 a b t hab ih =>
      simp only [replaceDouble, if_neg hab, List.length_cons]
      simp only [List.length_cons] at ih
      omega

lemma replaceDouble_length_lt (l : List Char) (h : hasDouble l = true) :
    (replaceDouble l).length < l.length := by
  induction l using replaceDouble.induct with
  | case1 => simp [hasDouble] at h
  | case2 a => simp [hasDouble] at h
  | case3 a b t hab ih =>
      simp only [replaceDouble, if_pos hab, List.length_cons]
      have := replaceDouble_length_le t
      omega
  | case4 a b t hab ih =>
      have h2 : hasDouble (b :: t) = true := by
        simp only [hasDouble, Bool.or_eq_true, Bool.and_eq_true, decide_eq_true_eq] at h
        rcases h with h | h
        · exact absurd h hab
        · exact h
      simp only [replaceDouble, if_neg hab, List.length_cons]
      have := ih h2
      simp only [List.length_cons] at this ⊢
      omega

lemma replaceDouble_subset {c : Char} {l : List Char} (h : c ∈ replaceDouble l) :
    c ∈ l := by
  induction l using replaceDouble.induct with
  | case1 => simp [replaceDouble] at h
  | case2 a => simpa [replaceDouble] using h
  | case3 a b t hab ih =>
      rw [replaceDouble, if_pos hab] at h
      rcases List.mem_cons.mp h with h | h
      · subst h
        simp [hab.1]
      · simp [ih h]
  | case4 a b t hab ih =>
      rw [replaceDouble, if_neg hab] at h
      rcases List.mem_cons.mp h with h | h
      · simp [h]
      · simp [ih h]

lemma collapseAux_noDouble :
    ∀ (fuel : ℕ) (l : List Char), l.length ≤ fuel →
      hasDouble (collapseAux fuel l) = false := by
  intro fuel
  induction fuel with
  | zero =>
      intro l hl
      have : l = [] := List.eq_nil_of_length_eq_zero (Nat.le_zero.mp hl)
      subst this
      rfl
  | succ n ih =>
      intro l hl
      rw [collapseAux]
      by_cases h : hasDouble l = true
      · rw [if_pos h]
        exact ih _ (by have := replaceDouble_length_lt l h; omega)
      · have hf : hasDouble l = false := by simpa using h
        rw [if_neg h]
        exact hf

lemma collapseAux_subset {c : Char} :
    ∀ (fuel : ℕ) (l : List Char), c ∈ collapseAux fuel l → c ∈ l := by
  intro fuel
  induction fuel with
  | zero =>
      intro l h
      simpa [collapseAux] using h
  | succ n ih =>
      intro l h
      rw [collapseAux] at h
      by_cases hd : hasDouble l = true
      · rw [if_pos hd] at h
        exact replaceDouble_subset (ih _ h)
      · rwa [if_neg hd] at h

lemma collapseUnd_noDouble (l : List Char) : hasDouble (collapseUnd l) = false :=
  collapseAux_noDouble l.length l le_rfl

lemma collapseUnd_subset {c : Char} {l : List Char} (h : c ∈ collapseUnd l) : c ∈ l :=
  collapseAux_subset l.length l h

lemma stripUnd_within (l : List Char) : stripUnd l <:+: l := by
  unfold stripUnd
  have h1 : l.dropWhile (fun c => c = '_') <:+ l := List.dropWhile_suffix _
  have h2 : (l.dropWhile (fun c => c = '_')).reverse.dropWhile (fun c => c = '_')
      <:+ (l.dropWhile (fun c => c = '_')).reverse := List.dropWhile_suffix _
  have h3 := List.reverse_prefix.mpr h2
  rw [List.reverse_reverse] at h3
  exact h3.isInfix.trans h1.isInfix

lemma safe_sel_infix_sanitized (sel : String) :
    (safe_sel_of sel).data <:+: collapseUnd (sel.data.map sanitizeChar) := by
  have h1 : ((stripUnd (collapseUnd (sel.data.map sanitizeChar))).take 40)
      <+: stripUnd (collapseUnd (sel.data.map sanitizeChar)) := List.take_prefix _ _
  exact h1.isInfix.trans (stripUnd_within _)

lemma digitChar_isDigit (n : ℕ) (h : n < 10) : (Nat.digitChar n).isDigit = true := by
  interval_cases n <;> decide

lemma pad2_digits (n : ℕ) (h : n < 100) : ∀ c ∈ (pad2 n).data, c.isDigit = true := by
  intro c hc
  rcases List.mem_cons.mp hc with h1 | hc
  · subst h1
    exact digitChar_isDigit _ (by omega)
  rcases List.mem_cons.mp hc with h1 | hc
  · subst h1
    exact digitChar_isDigit _ (by omega)
  · simp at hc

lemma pad4_digits (n : ℕ) (h : n < 10000) : ∀ c ∈ (pad4 n).data, c.isDigit = true := by
  intro c hc
  rcases List.mem_cons.mp hc with h1 | hc
  · subst h1
    exact digitChar_isDigit _ (by omega)
  rcases List.mem_cons.mp hc with h1 | hc
  · subst h1
    exact digitChar_isDigit _ (by omega)
  rcases List.mem_cons.mp hc with h1 | hc
  · subst h1
    exact digitChar_isDigit _ (by omega)
  rcases List.mem_cons.mp hc with h1 | hc
  · subst h1
    exact digitChar_isDigit _ (by omega)
  · simp at hc

/-- C8: when export is requested and the destination names an existing
directory, the synthesized filename is
`rms_report_<sanitizedObjectId><_sel_<sanitizedSelection>>_<timestamp>.txt`:
the object id has every character outside the alphanumeric/`-`/`_` class
replaced by `_` and is truncated to 30 characters; the `_sel_` segment
appears exactly for a non-trivial selection filter (non-empty, not
whitespace-only, not case-insensitive `all`), sanitized the same way with
consecutive `_` collapsed, leading/trailing `_` trimmed, truncated to 40
characters; and the timestamp is `YYYYMMDD_HHMMSS` — 8 digits, an
underscore, 6 digits (the bounds on the timestamp fields are the
invariants `datetime` guarantees).  The statement is restricted to ASCII
object ids and selection filters: on the ASCII range the embedding's
character predicates coincide exactly with Python's `str.isalnum`,
`str.strip` and `str.lower`, while for non-ASCII characters Python's
Unicode classification (e.g. alphanumerics and whitespace beyond ASCII)
is outside this embedding. -/
theorem c8_export_filename :
    ∀ (obj sel : String) (dt : DateTime),
    (∀ c ∈ obj.data, c.toNat < 128) → (∀ c ∈ sel.data, c.toNat < 128) →
    dt.year < 10000 → dt.month < 100 → dt.day < 100 →
    dt.hour < 100 → dt.minute < 100 → dt.second < 100 →
    (exportFilename obj sel dt
        = "rms_report_" ++ safe_obj_of obj ++ sel_part_of sel ++ "_" ++ fmtTimestamp dt ++ ".txt")
    ∧ ((safe_obj_of obj).length ≤ 30)
    ∧ (∀ c ∈ (safe_obj_of obj).data, c.isAlphanum = true ∨ c = '-' ∨ c = '_')
    ∧ (include_sel sel = false → sel_part_of sel = "")
    ∧ (include_sel sel = true →
        sel_part_of sel = "_sel_" ++ safe_sel_of sel
        ∧ (safe_sel_of sel).length ≤ 40
        ∧ hasDouble (safe_sel_of sel).data = false
        ∧ (∀ c ∈ (safe_sel_of sel).data, c.isAlphanum = true ∨ c = '-' ∨ c = '_'))
    ∧ ((fmtTimestamp dt).data
          = (pad4 dt.year ++ pad2 dt.month ++ pad2 dt.day).data
            ++ '_' :: (pad2 dt.hour ++ pad2 dt.minute ++ pad2 dt.second).data
        ∧ (pad4 dt.year ++ pad2 dt.month ++ pad2 dt.day).data.length = 8
        ∧ (pad2 dt.hour ++ pad2 dt.minute ++ pad2 dt.second).data.length = 6
        ∧ (∀ c ∈ (pad4 dt.year ++ pad2 dt.month ++ pad2 dt.day).data, c.isDigit = true)
        ∧ (∀ c ∈ (pad2 dt.hour ++ pad2 dt.minute ++ pad2 dt.second).data, c.isDigit = true)) := by
  intro obj sel dt hobj hsel hy hmo hd hh hmi hs
  refine ⟨rfl, ?_, ?_, ?_, ?_, rfl, rfl, rfl, ?_, ?_⟩
  · exact List.length_take_le 30 (obj.data.map sanitizeChar)
  · intro c hc
    replace hc : c ∈ (obj.data.map sanitizeChar).take 30 := hc
    have hm : c ∈ obj.data.map sanitizeChar := (List.take_prefix _ _).isInfix.subset hc
    obtain ⟨a, _, rfl⟩ := List.mem_map.mp hm
    exact sanitizeChar_class a
  · intro h
    simp [sel_part_of, h]
  · intro h
    refine ⟨by simp [sel_part_of, h], ?_, ?_, ?_⟩
    · exact List.length_take_le 40 (stripUnd (collapseUnd (sel.data.map sanitizeChar)))
    · exact noDouble_of_infix (safe_sel_infix_sanitized sel)
        (collapseUnd_noDouble (sel.data.map sanitizeChar))
    · intro c hc
      have h1 : c ∈ collapseUnd (sel.data.map sanitizeChar) :=
        (safe_sel_infix_sanitized sel).subset hc
      have h2 : c ∈ sel.data.map sanitizeChar := collapseUnd_subset h1
      obtain ⟨a, _, rfl⟩ := List.mem_map.mp h2
      exact sanitizeChar_class a
  · intro c hc
    replace hc : c ∈ ((pad4 dt.year).data ++ (pad2 dt.month).data) ++ (pad2 dt.day).data := hc
    rcases List.mem_append.mp hc with hc | hc
    · rcases List.mem_append.mp hc with hc | hc
      · exact pad4_digits dt.year hy c hc
      · exact pad2_digits dt.month hmo c hc
    · exact pad2_digits dt.day hd c hc
  · intro c hc
    replace hc : c ∈ ((pad2 dt.hour).data ++ (pad2 dt.minute).data) ++ (pad2 dt.second).data := hc
    rcases List.mem_append.mp hc with hc | hc
    · rcases List.mem_append.mp hc with hc | hc
      · exact pad2_digits dt.hour hh c hc
      · exact pad2_digits dt.minute hmi c hc
    · exact pad2_digits dt.second hs c hc

/-- C8 witness: at the ASCII inputs `objectId = "1A1T"`, selection
`"chain A"` and the timestamp 2025-10-12 03:04:05, the theorem's
hypotheses hold and the synthesized filename evaluates to
`rms_report_1A1T_sel_chain_A_20251012_030405.txt`; at the trivial
selection `"all"` the `_sel_` segment is absent. -/
theorem c8_export_filename_witness :
    exportFilename "1A1T" "chain A" ⟨2025, 10, 12, 3, 4, 5⟩
      = "rms_report_1A1T_sel_chain_A_20251012_030405.txt"
    ∧ sel_part_of "all" = "" := by
  constructor
  · have h := (c8_export_filename "1A1T" "chain A" ⟨2025, 10, 12, 3, 4, 5⟩
      (by decide) (by decide) (by decide) (by decide) (by decide) (by decide)
      (by decide) (by decide)).1
    rw [h]
    rfl
  · exact (c8_export_filename "x" "all" ⟨2025, 10, 12, 3, 4, 5⟩
      (by decide) (by decide) (by decide) (by decide) (by decide) (by decide)
      (by decide) (by decide)).2.2.2.1 (by rfl)

end PyRMS
